import Mathlib

/-!
Verification development for the Re-Prompt hybrid traceability and
confidence-scoring engine.

The definitions below are a shallow embedding of the JavaScript sources:
* `src/dev-server.mjs` — circuit breaker, LLM judge client, drift detector,
  confidence recomputation, consistency enforcement;
* `src/config.mjs` — configuration constants;
* `src/tests/api.test.mjs` — the inline TF-IDF/cosine engine and the inline
  test variants of `recomputeConfidence` and `enforceConsistency`.

JavaScript numbers are modelled by `ℚ` (all constants in the sources are
exactly representable); `Math.round` / `toFixed` round half toward +∞ on the
scaled value, which is `⌊x + 1/2⌋`. JS strings are `String`, with the JS
falsy-string test `s === ''`. External effects (the Groq network call, the
similarity engine that `dev-server.mjs` imports) are passed in as explicit
oracle parameters, so every theorem quantifies over all of their behaviours.
-/

/-- JS `Math.round` on a rational: round half toward positive infinity. -/
def jsRound (q : ℚ) : ℤ := ⌊q + 1 / 2⌋

/-- `Math.round(x * 100) / 100` and `x.toFixed(2)` (both round half up). -/
def round2 (q : ℚ) : ℚ := ((jsRound (q * 100) : ℚ)) / 100

/-- Render a natural below 1000 padded to three digits (for `toFixed(3)`). -/
def padNat3 (m : ℕ) : String :=
  (if m < 10 then "00" else if m < 100 then "0" else "") ++ toString m

/-- JS `Number.prototype.toFixed(3)`: decimal string with 3 fraction digits. -/
def toFixed3 (q : ℚ) : String :=
  let n := jsRound (q * 1000)
  let m := n.natAbs
  (if n < 0 then "-" else "") ++ toString (m / 1000) ++ "." ++ padNat3 (m % 1000)

/-- JS `a || b` on strings: the empty string is falsy. -/
def jsOr (a b : String) : String := if a = "" then b else a

/-- JS `a || b` where `a` may be absent (`undefined`) as well as empty. -/
def jsOrS (a : Option String) (b : String) : String :=
  match a with
  | some s => if s = "" then b else s
  | none => b

/-- `needle` is a prefix of `hay` (character lists). -/
def charsHasPre : List Char → List Char → Bool
  | [], _ => true
  | _ :: _, [] => false
  | a :: as, b :: bs => a = b && charsHasPre as bs

/-- JS `String.prototype.includes` on character lists. -/
def charsContains : List Char → List Char → Bool
  | [], needle => needle.isEmpty
  | c :: rest, needle => charsHasPre needle (c :: rest) || charsContains rest needle

/-- JS `hay.includes(needle)`. -/
def strContains (hay needle : String) : Bool := charsContains hay.toList needle.toList

/-- JS `String.prototype.toLowerCase` (per-character lowering). -/
def toLowerStr (s : String) : String := String.mk (s.toList.map Char.toLower)

/-! ## Text normalizer / tokenizer (src/tests/api.test.mjs, `normalizeText`/`tokenize`) -/

/-- Stop-word set from `src/tests/api.test.mjs` (`STOP_WORDS`). -/
def STOP_WORDS : List String :=
  ["the", "a", "an", "is", "in", "on", "at", "to", "for", "of", "and", "or",
   "with", "that", "this", "it", "be", "are", "was", "were", "by", "as",
   "from", "have", "has", "not", "but", "so"]

/-- A JS `\w` word character: ASCII letter, digit or underscore. -/
def wordChar (c : Char) : Bool := c.isAlphanum || c = '_'

/-- Lowercase each character and blank out non-word characters
(`.toLowerCase().replace(/[^\w\s]/g, ' ')`). The `normalize('NFKD')` step is
modelled as the identity: it only rewrites characters outside ASCII. -/
def normalizeChars (s : String) : List Char :=
  s.toList.map (fun c => let l := c.toLower; if wordChar l then l else ' ')

/-- Split a character list into its maximal runs of non-space characters. -/
def spaceRuns : List Char → List Char → List String
  | [], cur => if cur.isEmpty then [] else [String.mk cur.reverse]
  | c :: rest, cur =>
    if c = ' ' then
      if cur.isEmpty then spaceRuns rest [] else String.mk cur.reverse :: spaceRuns rest []
    else spaceRuns rest (c :: cur)

/-- `normalizeText`: lowercase, strip punctuation, collapse whitespace, trim. -/
def normalizeText (s : String) : String :=
  String.intercalate " " (spaceRuns (normalizeChars s) [])

/-- `tokenize`: split the normalized text on whitespace and drop tokens of
length ≤ 2 and stop words. -/
def tokenize (s : String) : List String :=
  (spaceRuns (normalizeChars s) []).filter (fun t => t.length > 2 && !(STOP_WORDS.contains t))

/-! ## TF-IDF corpus index and cosine similarity (src/tests/api.test.mjs,
`buildTfIdf` / `cosineSim`). Weights live in `ℝ` because the idf uses a
natural logarithm; sparse vectors are association lists with unique keys, the
embedding of the JS `Map`s. -/

/-- The sparse TF-IDF vector of one document: one entry per distinct token,
weight `(count/len) * (ln((N+1)/(df+1)) + 1)`. -/
noncomputable def tfidfVec (N : ℕ) (df : String → ℕ) (tokens : List String) :
    List (String × ℝ) :=
  tokens.dedup.map (fun t =>
    (t, ((tokens.count t : ℝ) / (tokens.length : ℝ)) *
        (Real.log (((N : ℝ) + 1) / ((df t : ℝ) + 1)) + 1)))

/-- `buildTfIdf(docs)`: document frequency over the tokenized corpus, then
one sparse vector per document. -/
noncomputable def buildTfIdf (docs : List String) : List (List (String × ℝ)) :=
  let tokenized := docs.map tokenize
  let df : String → ℕ := fun t => (tokenized.filter (fun tk => tk.contains t)).length
  tokenized.map (tfidfVec docs.length df)

/-- JS `vec.get(t) || 0` on the sparse-vector association list. -/
noncomputable def lookupW (B : List (String × ℝ)) (t : String) : ℝ :=
  ((B.find? (fun p => p.1 == t)).map (fun p => p.2)).getD 0

/-- The dot product accumulated by `cosineSim`'s first loop. -/
noncomputable def dotProd (A B : List (String × ℝ)) : ℝ :=
  (A.map (fun p => p.2 * lookupW B p.1)).sum

/-- The squared norm accumulated by `cosineSim` (`norm += w * w`). -/
noncomputable def normSq (A : List (String × ℝ)) : ℝ :=
  (A.map (fun p => p.2 * p.2)).sum

/-- `cosineSim(vecA, vecB)`: 0 when either norm is 0, else the cosine. -/
noncomputable def cosineSim (A B : List (String × ℝ)) : ℝ :=
  if normSq A = 0 ∨ normSq B = 0 then 0
  else dotProd A B / (Real.sqrt (normSq A) * Real.sqrt (normSq B))

/-! ## Configuration constants (src/config.mjs) -/

/-- `LIMITS.MAX_JUDGE_CALLS_PER_REQ`. -/
def MAX_JUDGE_CALLS_PER_REQ : ℕ := 8

/-- `FEATURES.USE_LLM_JUDGE`. -/
def USE_LLM_JUDGE : Bool := true

/-! ## Circuit breaker (src/dev-server.mjs, `circuitBreaker` /
`checkCircuitBreaker` / `tripBreaker`). Time is a natural-number clock; the
JS comparison `Date.now() - lastFailure > resetTime` agrees with truncated
subtraction because a negative JS difference also fails the `>` test. -/

structure BreakerState where
  failures : ℕ
  lastFailure : ℕ
  tripped : Bool
deriving DecidableEq, Repr

/-- `circuitBreaker.resetTime` (60 s). -/
def resetTime : ℕ := 60000

/-- `checkCircuitBreaker()`: returns whether the judge may proceed, plus the
(possibly reset) breaker state. -/
def checkCircuitBreaker (s : BreakerState) (now : ℕ) : Bool × BreakerState :=
  if s.tripped then
    if now - s.lastFailure > resetTime then
      (true, { s with tripped := false, failures := 0 })
    else (false, s)
  else (true, s)

/-- `tripBreaker()`: count a failure; five or more trip the breaker. -/
def tripBreaker (s : BreakerState) (now : ℕ) : BreakerState :=
  let f := s.failures + 1
  { failures := f, lastFailure := now, tripped := s.tripped || decide (f ≥ 5) }

/-! ## LLM judge client (src/dev-server.mjs, `llmJudgeSimilarity`) -/

/-- The judge verdict returned to the drift detector. -/
structure JudgeResult where
  score : Option ℚ
  source : String
deriving DecidableEq, Repr

/-- Outcome of the single bounded network request: a numeric score, or any
failure (transport error, abort timeout, `json.error`, non-numeric score). -/
inductive NetOutcome where
  | success (score : ℚ)
  | failure
deriving DecidableEq, Repr

/-- The md5 cache key is a stable hash of this string; the string itself is
used as the key in the model. -/
def cacheKey (featureText userInput : String) : String :=
  featureText ++ "|||" ++ userInput

/-- `judgeCache.get`. -/
def lookupCache (cache : List (String × ℚ)) (k : String) : Option ℚ :=
  (cache.find? (fun p => p.1 == k)).map (fun p => p.2)

/-- Everything one call to `llmJudgeSimilarity` produces: its result, the
breaker state and cache afterwards, and whether a network request was made. -/
structure JudgeCallResult where
  res : JudgeResult
  state : BreakerState
  cache : List (String × ℚ)
  attempted : Bool
deriving DecidableEq, Repr

/-- `llmJudgeSimilarity(featureText, userInput)`: breaker gate, cache lookup,
then one bounded network attempt whose outcome is the `net` oracle. -/
def llmJudgeSimilarity (st : BreakerState) (cache : List (String × ℚ))
    (featureText userInput : String) (now : ℕ) (net : NetOutcome) : JudgeCallResult :=
  let gate := checkCircuitBreaker st now
  if gate.1 = false then ⟨⟨none, "circuit-breaker"⟩, gate.2, cache, false⟩
  else
    let key := cacheKey featureText userInput
    match lookupCache cache key with
    | some v => ⟨⟨some v, "cache"⟩, gate.2, cache, false⟩
    | none =>
      match net with
      | NetOutcome.success sc => ⟨⟨some sc, "groq"⟩, gate.2, (key, sc) :: cache, true⟩
      | NetOutcome.failure => ⟨⟨none, "error"⟩, tripBreaker gate.2 now, cache, true⟩

/-! ## Data model (src/dev-server.mjs) -/

inductive TraceStatus where
  | traceable
  | assumption
  | speculative
deriving DecidableEq, Repr

/-- A feature as seen by `detectDomainDrift`; the three trace fields are
`none` until the loop writes them. -/
structure Feature where
  name : String
  description : String
  trace_score : Option ℚ := none
  trace_status : Option TraceStatus := none
  similarity_source : Option String := none
deriving DecidableEq, Repr

/-- An assumption record (`assumptions_made` entries and the synthesized
additions built inside the drift loop). -/
structure Assumption where
  assumption : String
  reason : String
  confidence_impact : ℚ
deriving DecidableEq, Repr

/-- A raw upstream assumption before the `runValidationPipeline` harvest
mapper normalizes it (`src/dev-server.mjs`, the `harvestArray` call on
`assumptions_made`). -/
structure RawAssumption where
  assumption : Option String := none
  text : Option String := none
  reason : Option String := none
  confidence_impact : Option ℚ := none
deriving DecidableEq, Repr

/-- The item mapper passed to `harvestArray` for `assumptions_made`:
`String(a.assumption || a.text || 'Inferred Requirement')`,
`String(a.reason || 'Derived')`, `a.confidence_impact ?? -2`. -/
def harvestAssumption (a : RawAssumption) : Assumption :=
  { assumption := jsOrS a.assumption (jsOrS a.text "Inferred Requirement"),
    reason := jsOrS a.reason "Derived",
    confidence_impact := a.confidence_impact.getD (-2) }

/-- A non-functional requirement entry (only `category` is read). -/
structure NFR where
  category : Option String := none
deriving DecidableEq, Repr

/-- One sub-score of the upstream `confidence_breakdown`. -/
structure ScoreEntry where
  score : Option ℚ := none
  justification : Option String := none
deriving DecidableEq, Repr

/-- The upstream `confidence_breakdown` fields read by `recomputeConfidence`. -/
structure ConfidenceBreakdownIn where
  input_clarity : Option ScoreEntry := none
  logical_coherence : Option ScoreEntry := none
deriving DecidableEq, Repr

/-- The slice of the pipeline data object the core reads. `Option` on the
list fields models the `|| []` / `Array.isArray` guards. -/
structure PipelineData where
  core_functional_components : Option (List Feature) := none
  assumptions_made : Option (List Assumption) := none
  non_functional_requirements : Option (List NFR) := none
  confidence_breakdown : Option ConfidenceBreakdownIn := none
deriving DecidableEq, Repr

/-- The `validation_logic` structure returned by `detectDomainDrift`. -/
structure ValidationLogic where
  domain_drift_instances : List String
  speculative_features_flagged : List String
  assumption_count : ℕ
  internal_consistency_check : String
  domain_consistency_computed : ℚ
  similarity_engine : String
  engine_version : String
  llm_judge_calls : ℕ
deriving DecidableEq, Repr

/-! ## Drift detector (src/dev-server.mjs, `detectDomainDrift`).
The imported similarity engine (`analyzeSimilarity` over the corpus built
from the user input) is not among the sources, so it is abstracted as an
oracle `analyze : String → ℚ × TraceStatus` giving each analyzed text its
TF-IDF score and classification; the judge is abstracted as an oracle
`judge : ℕ → JudgeResult` indexed by the number of previous judge calls,
absorbing cache, breaker and network behaviour. Every theorem about the loop
quantifies over both oracles. -/

/-- The loop accumulator (the `let` bindings above the `for` loop). -/
structure DriftAcc where
  traceableCount : ℕ := 0
  llmJudgeCalls : ℕ := 0
  driftInstances : List String := []
  speculativeFlagged : List String := []
  assumptionAdditions : List Assumption := []
deriving DecidableEq, Repr

/-- `feat.description || feat.name || ''` (line 160 of dev-server.mjs). -/
def featText (f : Feature) : String := jsOr f.description (jsOr f.name "")

/-- The `finalScore` / `simSource` / `traceStatus` / `llmJudgeCalls` values
after the conditional judge fallback of one loop iteration: TF-IDF verdict,
overwritten via the hardcoded `0.7` / `0.4` reclassification thresholds when
the feature is classified `assumption`, the judge is enabled, and the judge
returns a non-null score; the call counter is incremented whenever the judge
is invoked (`llmJudgeCalls++` precedes the `await`). -/
def driftVerdict (analyze : String → ℚ × TraceStatus) (useJudge : Bool)
    (judge : ℕ → JudgeResult) (acc : DriftAcc) (f : Feature) :
    ℚ × String × TraceStatus × ℕ :=
  let analysis := analyze (featText f)
  if analysis.2 = TraceStatus.assumption ∧ useJudge = true then
    match (judge acc.llmJudgeCalls).score with
    | some js =>
      (js, "llm-judge-" ++ (judge acc.llmJudgeCalls).source,
       if js ≥ 0.7 then TraceStatus.traceable
       else if js ≥ 0.4 then TraceStatus.assumption else TraceStatus.speculative,
       acc.llmJudgeCalls + 1)
    | none => (analysis.1, "tfidf", analysis.2, acc.llmJudgeCalls + 1)
  else (analysis.1, "tfidf", analysis.2, acc.llmJudgeCalls)

/-- One iteration of the `for (const feat of features)` body, after the
budget check: TF-IDF analysis, conditional judge fallback, in-place
enrichment of the feature, and accumulation. -/
def driftStep (analyze : String → ℚ × TraceStatus) (useJudge : Bool)
    (judge : ℕ → JudgeResult) (acc : DriftAcc) (f : Feature) : DriftAcc × Feature :=
  let verdict := driftVerdict analyze useJudge judge acc f
  let finalScore := verdict.1
  let simSource := verdict.2.1
  let traceStatus := verdict.2.2.1
  let f' := { f with trace_score := some finalScore, trace_status := some traceStatus,
                     similarity_source := some simSource }
  let acc1 := { acc with llmJudgeCalls := verdict.2.2.2 }
  let acc2 :=
    if traceStatus = TraceStatus.traceable then
      { acc1 with traceableCount := acc1.traceableCount + 1 }
    else if traceStatus = TraceStatus.assumption then
      { acc1 with assumptionAdditions := acc1.assumptionAdditions ++
          [{ assumption := f.name,
             reason := "Semi-traceable (similarity=" ++ toFixed3 finalScore ++
                       " via " ++ simSource ++ ")",
             confidence_impact := -2 }] }
    else
      { acc1 with
          speculativeFlagged := acc1.speculativeFlagged ++ [f.name],
          driftInstances := acc1.driftInstances ++
            ["[SPECULATIVE:" ++ simSource ++ "] " ++ f.name ++
             " (score=" ++ toFixed3 finalScore ++ ")"] }
  (acc2, f')

/-- The `for` loop with its budget `break`: returns the final accumulator,
the enriched processed features, and the untouched remaining features. -/
def driftLoop (analyze : String → ℚ × TraceStatus) (useJudge : Bool)
    (judge : ℕ → JudgeResult) : List Feature → DriftAcc →
    DriftAcc × List Feature × List Feature
  | [], acc => (acc, [], [])
  | f :: rest, acc =>
    if MAX_JUDGE_CALLS_PER_REQ ≤ acc.llmJudgeCalls then (acc, [], f :: rest)
    else
      let step := driftStep analyze useJudge judge acc f
      let r := driftLoop analyze useJudge judge rest step.1
      (r.1, step.2 :: r.2.1, r.2.2)

/-- `detectDomainDrift(data, userInputText)`: run the loop, then assemble the
`ValidationLogic`; also returns the feature list as the caller observes it
after the in-place mutations (enriched prefix, untouched suffix). The local
`assumptionAdditions` list is dropped, exactly as in the source. -/
def detectDomainDrift (data : PipelineData) (analyze : String → ℚ × TraceStatus)
    (useJudge : Bool) (judge : ℕ → JudgeResult) : ValidationLogic × List Feature :=
  let features := data.core_functional_components.getD []
  let r := driftLoop analyze useJudge judge features {}
  let acc := r.1
  let domainConsistency : ℚ :=
    if features.length > 0 then
      ((jsRound ((acc.traceableCount : ℚ) / (features.length : ℚ) * 100 * 100) : ℚ)) / 100
    else 100
  ({ domain_drift_instances := acc.driftInstances,
     speculative_features_flagged := acc.speculativeFlagged,
     assumption_count := (data.assumptions_made.getD []).length,
     internal_consistency_check := if acc.driftInstances.length = 0 then "PASS" else "PARTIAL",
     domain_consistency_computed := domainConsistency,
     similarity_engine := "hybrid-tfidf-llm-v2",
     engine_version := "3.2.0",
     llm_judge_calls := acc.llmJudgeCalls }, r.2.1 ++ r.2.2)

/-! ## Confidence recomputation (src/dev-server.mjs, `recomputeConfidence`) -/

/-- One sub-score of the recomputed breakdown (`Math.round`ed score). -/
structure ScoreOut where
  score : ℤ
  justification : String
deriving DecidableEq, Repr

/-- The recomputed `confidence_breakdown` structure. -/
structure ConfidenceOut where
  input_clarity : ScoreOut
  domain_consistency : ScoreOut
  requirement_completeness : ScoreOut
  logical_coherence : ScoreOut
  assumption_penalty : ℚ
  final_score : ℚ
  server_computed : Bool
  version : String
deriving DecidableEq, Repr

/-- `Math.min(100, Math.max(0, x))`. -/
def clamp100 (x : ℚ) : ℚ := min 100 (max 0 x)

/-- The five expected NFR categories. -/
def expectedNFR : List String :=
  ["security", "performance", "scalability", "reliability", "usability"]

/-- The dev-server `recomputeConfidence(data, validationLogic)`: clamped
factor scores, coupling penalties of 15 (consistency) and 10 (DC < 75) on
LC, flat assumption penalty `min(25, n * 2.5)`, weighted sum, rounded and
clamped final score. -/
def recomputeConfidence (data : PipelineData) (vl : ValidationLogic) : ConfidenceOut :=
  let cb := data.confidence_breakdown
  let assumptions := data.assumptions_made.getD []
  let nfrs := data.non_functional_requirements.getD []
  let icIn := (cb.bind (fun c => c.input_clarity)).bind (fun e => e.score)
  let lcIn := (cb.bind (fun c => c.logical_coherence)).bind (fun e => e.score)
  let IC := clamp100 (icIn.getD 60)
  let DC := clamp100 vl.domain_consistency_computed
  let covered := expectedNFR.filter (fun cat =>
    nfrs.any (fun n => strContains (toLowerStr (jsOrS n.category "")) cat))
  let RC := clamp100 (((covered.length : ℚ) / (expectedNFR.length : ℚ)) * 100)
  let LC0 := clamp100 (lcIn.getD 100)
  let LC1 := if vl.internal_consistency_check ≠ "PASS" then max 0 (LC0 - 15) else LC0
  let LC := if DC < 75 then max 0 (LC1 - 10) else LC1
  let penalty : ℚ := min 25 ((assumptions.length : ℚ) * 2.5)
  let raw := 0.3 * IC + 0.3 * DC + 0.2 * RC + 0.2 * LC - penalty
  let final := max 0 (min 100 (round2 raw))
  { input_clarity := ⟨jsRound IC,
      jsOrS ((cb.bind (fun c => c.input_clarity)).bind (fun e => e.justification))
        "Analyzed requirements"⟩,
    domain_consistency := ⟨jsRound DC,
      "Semantic trace (" ++ toString vl.llm_judge_calls ++ " calls)"⟩,
    requirement_completeness := ⟨jsRound RC,
      toString covered.length ++ "/" ++ toString expectedNFR.length ++ " NFRs"⟩,
    logical_coherence := ⟨jsRound LC,
      if vl.internal_consistency_check = "PASS" then "Consistent" else "Penalty applied"⟩,
    assumption_penalty := -(((jsRound (penalty * 10) : ℚ)) / 10),
    final_score := final,
    server_computed := true,
    version := "2.0" }

/-! ## Consistency enforcement (src/dev-server.mjs, `enforceConsistency`,
and the inline variant in src/tests/api.test.mjs) -/

structure Diagnostic where
  check : String
  detail : String
deriving DecidableEq, Repr

/-- The non-null result shape of the dev-server `enforceConsistency`. -/
structure Inconsistencies where
  inconsistencies : List Diagnostic
  count : ℕ
deriving DecidableEq, Repr

/-- Dev-server `enforceConsistency(data, validationLogic)`. -/
def enforceConsistency (data : PipelineData) (vl : ValidationLogic) :
    Option Inconsistencies :=
  let driftCount := vl.domain_drift_instances.length
  let specCount := vl.speculative_features_flagged.length
  let diagnostics : List Diagnostic :=
    if driftCount ≠ specCount then [⟨"parity", "drift vs spec mismatch"⟩] else []
  if diagnostics.length > 0 then some ⟨diagnostics, diagnostics.length⟩ else none

/-- The non-null result shape of the test-file `enforceConsistency`. -/
structure InconsistenciesT where
  inconsistencies : List Diagnostic
deriving DecidableEq, Repr

/-- The inline `enforceConsistency(features, driftInstances,
speculativeFlagged)` from src/tests/api.test.mjs. -/
def enforceConsistencyTest (features : List Feature)
    (driftInstances speculativeFlagged : List String) : Option InconsistenciesT :=
  let driftCount := driftInstances.length
  let specCount := speculativeFlagged.length
  let diagnostics : List Diagnostic :=
    if driftCount ≠ specCount then
      [⟨"drift_spec_parity",
        "drift(" ++ toString driftCount ++ ") ≠ speculative(" ++
        toString specCount ++ ")"⟩]
    else []
  if diagnostics.length > 0 then some ⟨diagnostics⟩ else none

/-! ## Inline confidence formula (src/tests/api.test.mjs,
`recomputeConfidence(IC, DC, RC, LC_base, consistencyCheck, assumptions)`) -/

/-- A test-file assumption entry: a bare number or an object whose
`confidence_impact` may be absent. -/
inductive TAssumption where
  | num (x : ℚ)
  | obj (confidence_impact : Option ℚ)
deriving DecidableEq, Repr

/-- The record returned by the inline `recomputeConfidence`. -/
structure TestConfResult where
  finalScore : ℚ
  LC : ℚ
  consistencyPenalty : Bool
  dcPenalty : Bool
  penalty : ℚ
deriving DecidableEq, Repr

/-- `|a|` or `|a.confidence_impact ?? 2|` for one test-file assumption. -/
def tImpact (a : TAssumption) : ℚ :=
  match a with
  | TAssumption.num x => |x|
  | TAssumption.obj i => |i.getD 2|

/-- The inline test-file `recomputeConfidence`: coupling penalties of 10
(consistency) and 5 (DC < 75) on LC, assumption penalty
`min(20, max(flat, customSum))`, final score clamped then `toFixed(2)`. -/
def recomputeConfidenceTest (IC DC RC LCbase : ℚ) (consistencyCheck : String)
    (assumptions : List TAssumption) : TestConfResult :=
  let lc1 := if consistencyCheck ≠ "PASS" then max 0 (LCbase - 10) else LCbase
  let consistencyPenalty := consistencyCheck ≠ "PASS"
  let lc2 := if DC < 75 then max 0 (lc1 - 5) else lc1
  let dcPenalty := DC < 75
  let flatPenalty := min ((assumptions.length : ℚ) * 2) 20
  let customSum := (assumptions.map tImpact).sum
  let penalty := min 20 (max flatPenalty customSum)
  let raw := 0.30 * IC + 0.30 * DC + 0.20 * RC + 0.20 * lc2 - penalty
  { finalScore := round2 (max 0 (min 100 raw)),
    LC := lc2,
    consistencyPenalty := decide consistencyPenalty,
    dcPenalty := decide dcPenalty,
    penalty := penalty }

/-! ## Spec-side assumption-penalty formula, for the refinement claim C2.
These three definitions follow the words of the specification
("penalty = min(cap, max(flatPenalty, customPenalty))", "flatPenalty =
min(assumptions.length * unitCost, cap)", "customPenalty = Σ
|confidence_impact or default|"), to be compared with the embedded code. -/

/-- Modelled from the spec: `flatPenalty = min(assumptions.length * unitCost, cap)`. -/
def specFlatPenalty (cap unitCost : ℚ) (assumptions : List TAssumption) : ℚ :=
  min ((assumptions.length : ℚ) * unitCost) cap

/-- Modelled from the spec: `customPenalty = Σ |confidence_impact or default|`. -/
def specCustomPenalty (assumptions : List TAssumption) : ℚ :=
  (assumptions.map tImpact).sum

/-- Modelled from the spec: `penalty = min(cap, max(flatPenalty, customPenalty))`. -/
def specAssumptionPenalty (cap unitCost : ℚ) (assumptions : List TAssumption) : ℚ :=
  min cap (max (specFlatPenalty cap unitCost assumptions) (specCustomPenalty assumptions))

/-! ## Claim theorems -/

/-- C1: for the inline confidence scorer of src/tests/api.test.mjs with
IC=80, DC=80, RC=70, LC=85 and no assumptions, `consistency='PARTIAL'`
yields exactly 77.00 with the consistency penalty flagged (and no DC
penalty), and DC=60 with `consistency='PASS'` yields exactly 72.00 with the
DC penalty flagged (and no consistency penalty): the coupling penalties
subtracted from LC are 10 for a non-PASS consistency check and 5 for
DC < 75. -/
theorem claim_C1_confidence_examples :
    (recomputeConfidenceTest 80 80 70 85 "PARTIAL" []).finalScore = 77 ∧
    (recomputeConfidenceTest 80 80 70 85 "PARTIAL" []).consistencyPenalty = true ∧
    (recomputeConfidenceTest 80 80 70 85 "PARTIAL" []).dcPenalty = false ∧
    (recomputeConfidenceTest 80 60 70 85 "PASS" []).finalScore = 72 ∧
    (recomputeConfidenceTest 80 60 70 85 "PASS" []).dcPenalty = true ∧
    (recomputeConfidenceTest 80 60 70 85 "PASS" []).consistencyPenalty = false := by
  have hPP : (("PARTIAL" : String) = "PASS") = False := by decide
  have hSS : (("PASS" : String) = "PASS") = True := by decide
  refine ⟨?_, ?_, ?_, ?_, ?_, ?_⟩
  · simp only [recomputeConfidenceTest, round2, jsRound]; norm_num [hPP]
  · simp [recomputeConfidenceTest]
  · simp only [recomputeConfidenceTest]; norm_num
  · simp only [recomputeConfidenceTest, round2, jsRound]; norm_num [hSS]
  · simp only [recomputeConfidenceTest]; norm_num
  · simp [recomputeConfidenceTest]

/-- C2: in the inline confidence scorer of src/tests/api.test.mjs, the
assumption penalty equals, for every assumption list, the spec formula
`min(cap, max(flatPenalty, customPenalty))` with cap 20, unit cost 2 and
default magnitude 2; and whenever the absolute sum of the supplied
`confidence_impact` values exceeds the flat penalty, the custom sum is the
value the cap is applied to. -/
theorem claim_C2_assumption_penalty (IC DC RC LCbase : ℚ) (cc : String)
    (assumptions : List TAssumption) :
    (recomputeConfidenceTest IC DC RC LCbase cc assumptions).penalty =
      specAssumptionPenalty 20 2 assumptions ∧
    (specFlatPenalty 20 2 assumptions < specCustomPenalty assumptions →
      (recomputeConfidenceTest IC DC RC LCbase cc assumptions).penalty =
        min 20 (specCustomPenalty assumptions)) := by
  constructor
  · simp [recomputeConfidenceTest, specAssumptionPenalty, specFlatPenalty,
      specCustomPenalty, min_comm ((assumptions.length : ℚ) * 2) 20]
  · intro h
    have hle : min ((assumptions.length : ℚ) * 2) 20 ≤ (assumptions.map tImpact).sum := by
      simpa [specFlatPenalty, specCustomPenalty] using h.le
    simp [recomputeConfidenceTest, specCustomPenalty, max_eq_right hle]

/-- C2 witness: five assumptions each with `confidence_impact = -5` have
custom sum 25 exceeding the flat penalty 10, so the penalty is
`min(20, 25) = 20`. -/
theorem claim_C2_assumption_penalty_witness :
    (recomputeConfidenceTest 80 80 80 80 "PASS"
        (List.replicate 5 (TAssumption.obj (some (-5))))).penalty =
      min 20 (specCustomPenalty (List.replicate 5 (TAssumption.obj (some (-5))))) ∧
    (recomputeConfidenceTest 80 80 80 80 "PASS"
        (List.replicate 5 (TAssumption.obj (some (-5))))).penalty = 20 := by
  have h := (claim_C2_assumption_penalty 80 80 80 80 "PASS"
      (List.replicate 5 (TAssumption.obj (some (-5))))).2
      (by norm_num [specFlatPenalty, specCustomPenalty, tImpact])
  exact ⟨h, by rw [h]; norm_num [specCustomPenalty, tImpact]⟩

/-- A `ValidationLogic` value with the given drift/speculative lists and
neutral remaining fields, for exercising the consistency enforcers. -/
def vlWith (drift specf : List String) : ValidationLogic :=
  { domain_drift_instances := drift,
    speculative_features_flagged := specf,
    assumption_count := 0,
    internal_consistency_check := "PASS",
    domain_consistency_computed := 100,
    similarity_engine := "hybrid-tfidf-llm-v2",
    engine_version := "3.2.0",
    llm_judge_calls := 0 }

/-- C7: both consistency enforcers return `null` on equal-length lists, and
on unequal lengths both return a non-null diagnostic — but the dev-server
`enforceConsistency` labels it `check = 'parity'`, not the
`'drift_spec_parity'` the claim (with the spec and the repository's own test
suite, src/tests/api.test.mjs) states; the test-file variant does return
`'drift_spec_parity'`. -/
theorem claim_C7_parity_diagnostic :
    enforceConsistency {} (vlWith ["a"] ["a"]) = none ∧
    enforceConsistencyTest [] ["a"] ["a"] = none ∧
    ((enforceConsistency {} (vlWith ["a", "b"] ["a"])).map
      (fun r => r.inconsistencies.map Diagnostic.check)) = some ["parity"] ∧
    ((enforceConsistencyTest [] ["a", "b"] ["a"]).map
      (fun r => r.inconsistencies.map Diagnostic.check)) = some ["drift_spec_parity"] ∧
    ("parity" : String) ≠ "drift_spec_parity" := by
  refine ⟨by decide, by decide, by decide, by decide, by decide⟩

/-- C5: the circuit breaker state machine. (a) Five consecutive failures
starting from a zero failure count set `tripped`. (b) While tripped and
within the reset window, a judge call returns `{score: null, source:
'circuit-breaker'}` with no network attempt and no state change. (c) Once
the reset window has elapsed, the gate clears `tripped` and `failures`, and
a judge call (on a cache miss) proceeds to a network attempt. -/
theorem claim_C5_circuit_breaker :
    (∀ (s : BreakerState) (t1 t2 t3 t4 t5 : ℕ), s.failures = 0 →
      (tripBreaker (tripBreaker (tripBreaker (tripBreaker (tripBreaker s t1) t2) t3) t4)
        t5).tripped = true) ∧
    (∀ (s : BreakerState) (cache : List (String × ℚ)) (ft ui : String) (now : ℕ)
      (net : NetOutcome), s.tripped = true → now - s.lastFailure ≤ resetTime →
      llmJudgeSimilarity s cache ft ui now net =
        ⟨⟨none, "circuit-breaker"⟩, s, cache, false⟩) ∧
    (∀ (s : BreakerState) (cache : List (String × ℚ)) (ft ui : String) (now : ℕ)
      (net : NetOutcome), s.tripped = true → resetTime < now - s.lastFailure →
      checkCircuitBreaker s now = (true, { s with tripped := false, failures := 0 }) ∧
      (lookupCache cache (cacheKey ft ui) = none →
        (llmJudgeSimilarity s cache ft ui now net).attempted = true)) := by
  refine ⟨?_, ?_, ?_⟩
  · intro s t1 t2 t3 t4 t5 h
    simp [tripBreaker, h]
  · intro s cache ft ui now net h1 h2
    simp [llmJudgeSimilarity, checkCircuitBreaker, h1, not_lt.mpr h2]
  · intro s cache ft ui now net h1 h2
    refine ⟨by simp [checkCircuitBreaker, h1, h2], fun hc => ?_⟩
    cases net <;> simp [llmJudgeSimilarity, checkCircuitBreaker, h1, h2, hc]

/-- C5 witness: a breaker fully tripped at time 100 blocks a call at time
150 (window not elapsed) and lets a call at time 70000 reach the network. -/
theorem claim_C5_circuit_breaker_witness :
    (tripBreaker (tripBreaker (tripBreaker (tripBreaker
      (tripBreaker ⟨0, 0, false⟩ 1) 2) 3) 4) 5).tripped = true ∧
    llmJudgeSimilarity ⟨5, 100, true⟩ [] "feat" "user" 150 NetOutcome.failure =
      ⟨⟨none, "circuit-breaker"⟩, ⟨5, 100, true⟩, [], false⟩ ∧
    (llmJudgeSimilarity ⟨5, 100, true⟩ [] "feat" "user" 70000 NetOutcome.failure).attempted
      = true :=
  ⟨claim_C5_circuit_breaker.1 ⟨0, 0, false⟩ 1 2 3 4 5 rfl,
   claim_C5_circuit_breaker.2.1 ⟨5, 100, true⟩ [] "feat" "user" 150 NetOutcome.failure
     rfl (by decide),
   (claim_C5_circuit_breaker.2.2 ⟨5, 100, true⟩ [] "feat" "user" 70000 NetOutcome.failure
     rfl (by decide)).2 (by decide)⟩

/-! ## Helper lemmas about the drift loop -/

theorem driftStep_snd (a : String → ℚ × TraceStatus) (u : Bool) (j : ℕ → JudgeResult)
    (acc : DriftAcc) (f : Feature) :
    (driftStep a u j acc f).2 =
      { f with trace_score := some (driftVerdict a u j acc f).1,
               trace_status := some (driftVerdict a u j acc f).2.2.1,
               similarity_source := some (driftVerdict a u j acc f).2.1 } := by
  rcases hv : driftVerdict a u j acc f with ⟨sc, src, st, n⟩
  simp only [driftStep, hv]

theorem driftStep_calls (a : String → ℚ × TraceStatus) (u : Bool) (j : ℕ → JudgeResult)
    (acc : DriftAcc) (f : Feature) :
    (driftStep a u j acc f).1.llmJudgeCalls = (driftVerdict a u j acc f).2.2.2 := by
  rcases hv : driftVerdict a u j acc f with ⟨sc, src, st, n⟩
  simp only [driftStep, hv]
  cases st <;> simp

theorem driftVerdict_calls (a : String → ℚ × TraceStatus) (u : Bool) (j : ℕ → JudgeResult)
    (acc : DriftAcc) (f : Feature) :
    (driftVerdict a u j acc f).2.2.2 = acc.llmJudgeCalls ∨
    (driftVerdict a u j acc f).2.2.2 = acc.llmJudgeCalls + 1 := by
  unfold driftVerdict
  rcases hs : (j acc.llmJudgeCalls).score with _ | s <;> simp [hs] <;> split <;> simp

theorem driftStep_parity (a : String → ℚ × TraceStatus) (u : Bool) (j : ℕ → JudgeResult)
    (acc : DriftAcc) (f : Feature) :
    (driftStep a u j acc f).1.driftInstances.length + acc.speculativeFlagged.length =
    (driftStep a u j acc f).1.speculativeFlagged.length + acc.driftInstances.length := by
  rcases hv : driftVerdict a u j acc f with ⟨sc, src, st, n⟩
  simp only [driftStep, hv]
  cases st <;> simp <;> omega

theorem driftStep_additions (a : String → ℚ × TraceStatus) (u : Bool) (j : ℕ → JudgeResult)
    (acc : DriftAcc) (f : Feature) :
    (driftStep a u j acc f).1.assumptionAdditions.length =
    acc.assumptionAdditions.length +
      (if (driftStep a u j acc f).2.trace_status = some TraceStatus.assumption
       then 1 else 0) := by
  rcases hv : driftVerdict a u j acc f with ⟨sc, src, st, n⟩
  simp only [driftStep, hv]
  cases st <;> simp

theorem driftStep_enriched (a : String → ℚ × TraceStatus) (u : Bool) (j : ℕ → JudgeResult)
    (acc : DriftAcc) (f : Feature) :
    (driftStep a u j acc f).2.trace_score.isSome = true ∧
    (driftStep a u j acc f).2.trace_status.isSome = true ∧
    (driftStep a u j acc f).2.similarity_source.isSome = true := by
  rcases hv : driftVerdict a u j acc f with ⟨sc, src, st, n⟩
  simp only [driftStep, hv]
  cases st <;> simp

theorem driftLoop_parity (a : String → ℚ × TraceStatus) (u : Bool) (j : ℕ → JudgeResult) :
    ∀ (feats : List Feature) (acc : DriftAcc),
    (driftLoop a u j feats acc).1.driftInstances.length + acc.speculativeFlagged.length =
    (driftLoop a u j feats acc).1.speculativeFlagged.length + acc.driftInstances.length := by
  intro feats
  induction feats with
  | nil => intro acc; simp only [driftLoop]; omega
  | cons f rest ih =>
    intro acc
    by_cases hb : MAX_JUDGE_CALLS_PER_REQ ≤ acc.llmJudgeCalls
    · simp only [driftLoop, if_pos hb]; omega
    · simp only [driftLoop, if_neg hb]
      have h1 := driftStep_parity a u j acc f
      have h2 := ih (driftStep a u j acc f).1
      omega

theorem driftLoop_enriched (a : String → ℚ × TraceStatus) (u : Bool) (j : ℕ → JudgeResult) :
    ∀ (feats : List Feature) (acc : DriftAcc),
    ∀ g ∈ (driftLoop a u j feats acc).2.1,
      g.trace_score.isSome = true ∧ g.trace_status.isSome = true ∧
      g.similarity_source.isSome = true := by
  intro feats
  induction feats with
  | nil => intro acc g hg; simp [driftLoop] at hg
  | cons f rest ih =>
    intro acc g hg
    by_cases hb : MAX_JUDGE_CALLS_PER_REQ ≤ acc.llmJudgeCalls
    · simp [driftLoop, if_pos hb] at hg
    · simp only [driftLoop, if_neg hb, List.mem_cons] at hg
      rcases hg with hg | hg
      · exact hg ▸ driftStep_enriched a u j acc f
      · exact ih (driftStep a u j acc f).1 g hg

theorem driftLoop_rest (a : String → ℚ × TraceStatus) (u : Bool) (j : ℕ → JudgeResult) :
    ∀ (feats : List Feature) (acc : DriftAcc),
    (driftLoop a u j feats acc).2.2 =
      feats.drop (driftLoop a u j feats acc).2.1.length := by
  intro feats
  induction feats with
  | nil => intro acc; simp [driftLoop]
  | cons f rest ih =>
    intro acc
    by_cases hb : MAX_JUDGE_CALLS_PER_REQ ≤ acc.llmJudgeCalls
    · simp [driftLoop, if_pos hb]
    · simp only [driftLoop, if_neg hb]
      simpa using ih (driftStep a u j acc f).1

theorem driftLoop_length (a : String → ℚ × TraceStatus) (u : Bool) (j : ℕ → JudgeResult) :
    ∀ (feats : List Feature) (acc : DriftAcc),
    (driftLoop a u j feats acc).2.1.length + (driftLoop a u j feats acc).2.2.length =
      feats.length := by
  intro feats
  induction feats with
  | nil => intro acc; simp [driftLoop]
  | cons f rest ih =>
    intro acc
    by_cases hb : MAX_JUDGE_CALLS_PER_REQ ≤ acc.llmJudgeCalls
    · simp [driftLoop, if_pos hb]
    · simp only [driftLoop, if_neg hb]
      have := ih (driftStep a u j acc f).1
      simp only [List.length_cons]
      omega

theorem driftLoop_rest_budget (a : String → ℚ × TraceStatus) (u : Bool)
    (j : ℕ → JudgeResult) :
    ∀ (feats : List Feature) (acc : DriftAcc),
    (driftLoop a u j feats acc).2.2 ≠ [] →
      MAX_JUDGE_CALLS_PER_REQ ≤ (driftLoop a u j feats acc).1.llmJudgeCalls := by
  intro feats
  induction feats with
  | nil => intro acc h; simp [driftLoop] at h
  | cons f rest ih =>
    intro acc h
    by_cases hb : MAX_JUDGE_CALLS_PER_REQ ≤ acc.llmJudgeCalls
    · simpa [driftLoop, if_pos hb] using hb
    · simp only [driftLoop, if_neg hb] at h ⊢
      exact ih (driftStep a u j acc f).1 h

theorem driftLoop_additions (a : String → ℚ × TraceStatus) (u : Bool)
    (j : ℕ → JudgeResult) :
    ∀ (feats : List Feature) (acc : DriftAcc),
    (driftLoop a u j feats acc).1.assumptionAdditions.length =
      acc.assumptionAdditions.length +
      ((driftLoop a u j feats acc).2.1.filter
        (fun g => g.trace_status = some TraceStatus.assumption)).length := by
  intro feats
  induction feats with
  | nil => intro acc; simp [driftLoop]
  | cons f rest ih =>
    intro acc
    by_cases hb : MAX_JUDGE_CALLS_PER_REQ ≤ acc.llmJudgeCalls
    · simp [driftLoop, if_pos hb]
    · simp only [driftLoop, if_neg hb]
      have h1 := driftStep_additions a u j acc f
      have h2 := ih (driftStep a u j acc f).1
      rw [h2, List.filter_cons]
      by_cases hc : (driftStep a u j acc f).2.trace_status = some TraceStatus.assumption
      · rw [if_pos hc] at h1
        simp only [decide_eq_true_eq]
        rw [if_pos hc, List.length_cons]
        omega
      · rw [if_neg hc] at h1
        simp only [decide_eq_true_eq]
        rw [if_neg hc]
        omega

/-! ## Concrete inputs used by counterexamples and witnesses -/

/-- An analysis oracle classifying every text as a gray-zone `assumption`
with TF-IDF score 0.5. -/
def analyze0 : String → ℚ × TraceStatus := fun _ => (1/2, TraceStatus.assumption)

/-- A judge oracle whose every invocation fails (`{score: null, source:
'error'}`). -/
def judge0 : ℕ → JudgeResult := fun _ => ⟨none, "error"⟩

/-- A plain un-enriched feature. -/
def feat9 : Feature := { name := "F", description := "d" }

/-- Nine copies of `feat9`: one more feature than the judge budget allows
when every feature is classified `assumption`. -/
def data9 : PipelineData :=
  { core_functional_components := some (List.replicate 9 feat9),
    assumptions_made := some [] }

/-- A single gray-zone feature. -/
def data1 : PipelineData :=
  { core_functional_components := some [feat9], assumptions_made := some [] }

/-- One upstream assumption with the default impact. -/
def dataA : PipelineData := { assumptions_made := some [⟨"a", "r", -2⟩] }

/-- One upstream assumption with a large custom impact. -/
def dataB : PipelineData := { assumptions_made := some [⟨"b", "s", -50⟩] }

/-- C6: in every `ValidationLogic` the drift detector returns, the drift
instances and the speculative-feature flags have equal length, for every
input and every behaviour of the similarity and judge oracles. -/
theorem claim_C6_drift_spec_parity (data : PipelineData)
    (a : String → ℚ × TraceStatus) (u : Bool) (j : ℕ → JudgeResult) :
    (detectDomainDrift data a u j).1.domain_drift_instances.length =
    (detectDomainDrift data a u j).1.speculative_features_flagged.length := by
  have h := driftLoop_parity a u j (data.core_functional_components.getD []) {}
  simp only [detectDomainDrift]
  simpa using h

/-- C3 counterexample: with nine features all classified `assumption` and a
failing judge, the budget check fires before the ninth feature, which is
returned with none of `trace_score`, `trace_status`, `similarity_source`
written — refuting the claim that every feature, including those after the
budget is exhausted, is enriched. -/
theorem claim_C3_cex_ninth_feature_untouched :
    (detectDomainDrift data9 analyze0 true judge0).2.length = 9 ∧
    ((detectDomainDrift data9 analyze0 true judge0).2.getD 8 feat9).trace_status = none ∧
    ((detectDomainDrift data9 analyze0 true judge0).2.getD 8 feat9).trace_score = none ∧
    ((detectDomainDrift data9 analyze0 true judge0).2.getD 8 feat9).similarity_source
      = none := by
  refine ⟨by decide, by decide, by decide, by decide⟩

/-- C3 amended: every feature the loop processes before the judge-budget
check fires is enriched with all three trace fields exactly once; the
features the detector returns are exactly the enriched prefix followed by
the untouched remainder of the input list, and features are only left
untouched when the judge-call budget has been reached. -/
theorem claim_C3_enrichment_amended (a : String → ℚ × TraceStatus) (u : Bool)
    (j : ℕ → JudgeResult) (data : PipelineData) :
    (∀ g ∈ (driftLoop a u j (data.core_functional_components.getD []) {}).2.1,
      g.trace_score.isSome = true ∧ g.trace_status.isSome = true ∧
      g.similarity_source.isSome = true) ∧
    (detectDomainDrift data a u j).2 =
      (driftLoop a u j (data.core_functional_components.getD []) {}).2.1 ++
      (data.core_functional_components.getD []).drop
        (driftLoop a u j (data.core_functional_components.getD []) {}).2.1.length ∧
    (detectDomainDrift data a u j).2.length =
      (data.core_functional_components.getD []).length ∧
    ((driftLoop a u j (data.core_functional_components.getD []) {}).2.2 ≠ [] →
      MAX_JUDGE_CALLS_PER_REQ ≤ (detectDomainDrift data a u j).1.llm_judge_calls) := by
  refine ⟨driftLoop_enriched a u j _ _, ?_, ?_, ?_⟩
  · simp only [detectDomainDrift]
    rw [← driftLoop_rest a u j (data.core_functional_components.getD []) {}]
  · simp only [detectDomainDrift, List.length_append]
    exact driftLoop_length a u j _ _
  · intro h
    simp only [detectDomainDrift]
    exact driftLoop_rest_budget a u j _ _ h

/-- The head returned by `getD 0` of a non-empty list is a member. -/
theorem getD_zero_mem {α : Type _} (l : List α) (d : α) (h : 0 < l.length) :
    l.getD 0 d ∈ l := by
  cases l with
  | nil => simp at h
  | cons x xs => simp [List.getD]

/-- C3 witness: on the nine-feature input the remainder is non-empty, so
the budget bound is attained, the returned list still has all nine
features, and the first processed feature is enriched. -/
theorem claim_C3_enrichment_amended_witness :
    MAX_JUDGE_CALLS_PER_REQ ≤ (detectDomainDrift data9 analyze0 true judge0).1.llm_judge_calls ∧
    (detectDomainDrift data9 analyze0 true judge0).2.length =
      (data9.core_functional_components.getD []).length ∧
    ((driftLoop analyze0 true judge0 (data9.core_functional_components.getD []) {}).2.1.getD
      0 feat9).trace_status.isSome = true :=
  ⟨(claim_C3_enrichment_amended analyze0 true judge0 data9).2.2.2 (by decide),
   (claim_C3_enrichment_amended analyze0 true judge0 data9).2.2.1,
   ((claim_C3_enrichment_amended analyze0 true judge0 data9).1 _
     (getD_zero_mem _ feat9 (by decide))).2.1⟩

/-- C4 counterexample: a single gray-zone feature whose judge call returns
null still increments `llm_judge_calls` to 1, refuting the claim that the
counter is incremented only when the judge returns a non-null score (the
TF-IDF verdict is indeed kept). -/
theorem claim_C4_cex_counter_increment_on_null :
    (detectDomainDrift data1 analyze0 true judge0).1.llm_judge_calls = 1 ∧
    (judge0 0).score = none ∧
    ((detectDomainDrift data1 analyze0 true judge0).2.getD 0 feat9).similarity_source
      = some "tfidf" ∧
    ((detectDomainDrift data1 analyze0 true judge0).2.getD 0 feat9).trace_status
      = some TraceStatus.assumption := by
  refine ⟨by decide, by decide, by decide, by decide⟩

/-- C4 amended: for a feature classified `assumption` by TF-IDF with the
judge enabled, the call counter is incremented by exactly one whenever the
judge is invoked, regardless of its result; a non-null judge score
overwrites score/status/source with the thresholds score ≥ 0.7 → traceable,
score ≥ 0.4 → assumption, else speculative; a null score keeps the TF-IDF
verdict unchanged. -/
theorem claim_C4_judge_fallback_amended (a : String → ℚ × TraceStatus)
    (j : ℕ → JudgeResult) (acc : DriftAcc) (f : Feature)
    (h : (a (featText f)).2 = TraceStatus.assumption) :
    (driftStep a true j acc f).1.llmJudgeCalls = acc.llmJudgeCalls + 1 ∧
    (∀ s : ℚ, (j acc.llmJudgeCalls).score = some s →
      (driftStep a true j acc f).2.trace_score = some s ∧
      (driftStep a true j acc f).2.trace_status =
        some (if s ≥ 0.7 then TraceStatus.traceable
              else if s ≥ 0.4 then TraceStatus.assumption else TraceStatus.speculative) ∧
      (driftStep a true j acc f).2.similarity_source =
        some ("llm-judge-" ++ (j acc.llmJudgeCalls).source)) ∧
    ((j acc.llmJudgeCalls).score = none →
      (driftStep a true j acc f).2.trace_score = some (a (featText f)).1 ∧
      (driftStep a true j acc f).2.trace_status = some TraceStatus.assumption ∧
      (driftStep a true j acc f).2.similarity_source = some "tfidf") := by
  refine ⟨?_, ?_, ?_⟩
  · rw [driftStep_calls]
    rcases hs : (j acc.llmJudgeCalls).score with _ | s <;> simp [driftVerdict, h, hs]
  · intro s hs
    rw [driftStep_snd]
    simp [driftVerdict, h, hs]
  · intro hs
    rw [driftStep_snd]
    simp [driftVerdict, h, hs]

/-- C4 witness: the single gray-zone feature with a null judge result has
its counter incremented from 0 to 1 and keeps the TF-IDF verdict. -/
theorem claim_C4_judge_fallback_amended_witness :
    (driftStep analyze0 true judge0 {} feat9).1.llmJudgeCalls = 1 ∧
    (driftStep analyze0 true judge0 {} feat9).2.trace_status =
      some TraceStatus.assumption ∧
    (driftStep analyze0 true judge0 {} feat9).2.similarity_source = some "tfidf" :=
  ⟨(claim_C4_judge_fallback_amended analyze0 judge0 {} feat9 (by decide)).1,
   ((claim_C4_judge_fallback_amended analyze0 judge0 {} feat9 (by decide)).2.2
     (by decide)).2.1,
   ((claim_C4_judge_fallback_amended analyze0 judge0 {} feat9 (by decide)).2.2
     (by decide)).2.2⟩

/-- C10: the returned `assumption_count` is exactly the length of the
upstream `assumptions_made` list, for every input and oracle behaviour; the
synthesized per-feature assumption records are accumulated (one per
processed feature whose final status is `assumption`) but appear in no
returned structure; and the dev-server assumption penalty depends only on
the length of `assumptions_made` — in particular the per-assumption
`confidence_impact` values never contribute to it. -/
theorem claim_C10_assumption_count (data : PipelineData)
    (a : String → ℚ × TraceStatus) (u : Bool) (j : ℕ → JudgeResult) :
    (detectDomainDrift data a u j).1.assumption_count =
      (data.assumptions_made.getD []).length ∧
    (driftLoop a u j (data.core_functional_components.getD []) {}).1.assumptionAdditions.length =
      ((driftLoop a u j (data.core_functional_components.getD []) {}).2.1.filter
        (fun g => g.trace_status = some TraceStatus.assumption)).length ∧
    (∀ (d₁ d₂ : PipelineData) (v₁ v₂ : ValidationLogic),
      (d₁.assumptions_made.getD []).length = (d₂.assumptions_made.getD []).length →
      (recomputeConfidence d₁ v₁).assumption_penalty =
        (recomputeConfidence d₂ v₂).assumption_penalty) := by
  refine ⟨?_, ?_, ?_⟩
  · simp [detectDomainDrift]
  · simpa using driftLoop_additions a u j (data.core_functional_components.getD []) {}
  · intro d₁ d₂ v₁ v₂ h
    simp only [recomputeConfidence]
    rw [h]

/-- C10 witness: nine `assumption`-classified features leave
`assumption_count` at 0 (the empty upstream list), and two data objects
with one assumption each — default impact -2 versus custom impact -50 —
receive the same assumption penalty. -/
theorem claim_C10_assumption_count_witness :
    (detectDomainDrift data9 analyze0 true judge0).1.assumption_count = 0 ∧
    (recomputeConfidence dataA (vlWith [] [])).assumption_penalty =
      (recomputeConfidence dataB (vlWith ["x"] [])).assumption_penalty :=
  ⟨(claim_C10_assumption_count data9 analyze0 true judge0).1,
   (claim_C10_assumption_count data9 analyze0 true judge0).2.2 dataA dataB
     (vlWith [] []) (vlWith ["x"] []) (by decide)⟩

/-! ## Helper lemmas about the TF-IDF cosine engine -/

/-- The accumulated squared norm is a sum of squares, hence nonnegative. -/
theorem normSq_nonneg (A : List (String × ℝ)) : 0 ≤ normSq A := by
  unfold normSq
  apply List.sum_nonneg
  intro x hx
  rcases List.mem_map.1 hx with ⟨p, _, rfl⟩
  exact mul_self_nonneg _

/-- A vector of squared-norm zero has every weight zero. -/
theorem weight_eq_zero_of_normSq (A : List (String × ℝ)) (h : normSq A = 0) :
    ∀ p ∈ A, p.2 = 0 := by
  induction A with
  | nil => simp
  | cons q rest ih =>
    have hq : 0 ≤ q.2 * q.2 := mul_self_nonneg _
    have hr : 0 ≤ normSq rest := normSq_nonneg rest
    have hsum : q.2 * q.2 + normSq rest = 0 := by
      simpa [normSq] using h
    have hq0 : q.2 * q.2 = 0 := by linarith
    have hr0 : normSq rest = 0 := by linarith
    intro p hp
    rcases List.mem_cons.1 hp with hp | hp
    · rw [hp]; exact mul_self_eq_zero.1 hq0
    · exact ih hr0 p hp

/-- Lookup in a vector of squared-norm zero yields the default 0. -/
theorem lookupW_eq_zero_of_normSq (B : List (String × ℝ)) (h : normSq B = 0)
    (t : String) : lookupW B t = 0 := by
  unfold lookupW
  cases hf : B.find? (fun p => p.1 == t) with
  | none => simp [hf]
  | some p => exact weight_eq_zero_of_normSq B h p (List.mem_of_find?_eq_some hf)

/-- Lookup of a key absent from the vector yields the default 0. -/
theorem lookupW_eq_zero_of_not_key (B : List (String × ℝ)) (t : String)
    (h : ∀ q ∈ B, q.1 ≠ t) : lookupW B t = 0 := by
  have hf : B.find? (fun p => p.1 == t) = none :=
    List.find?_eq_none.2 (fun x hx => by simpa using h x hx)
  simp [lookupW, hf]

/-- The dot product with a left factor of squared-norm zero is zero. -/
theorem dotProd_zero_left (A B : List (String × ℝ)) (h : normSq A = 0) :
    dotProd A B = 0 := by
  unfold dotProd
  apply List.sum_eq_zero
  intro x hx
  rcases List.mem_map.1 hx with ⟨p, hp, rfl⟩
  rw [weight_eq_zero_of_normSq A h p hp, zero_mul]

/-- The dot product with a right factor of squared-norm zero is zero. -/
theorem dotProd_zero_right (A B : List (String × ℝ)) (h : normSq B = 0) :
    dotProd A B = 0 := by
  unfold dotProd
  apply List.sum_eq_zero
  intro x hx
  rcases List.mem_map.1 hx with ⟨p, hp, rfl⟩
  rw [lookupW_eq_zero_of_normSq B h, mul_zero]

/-- Vectors with disjoint key sets have dot product zero. -/
theorem dotProd_zero_of_disjoint (A B : List (String × ℝ))
    (h : ∀ p ∈ A, ∀ q ∈ B, q.1 ≠ p.1) : dotProd A B = 0 := by
  unfold dotProd
  apply List.sum_eq_zero
  intro x hx
  rcases List.mem_map.1 hx with ⟨p, hp, rfl⟩
  rw [lookupW_eq_zero_of_not_key B p.1 (fun q hq => h p hp q hq), mul_zero]

/-- `cosineSim` agrees with the mathematical cosine formula everywhere:
in the guarded branch both sides are zero (a zero squared norm forces every
weight, hence the dot product, to zero). -/
theorem cosineSim_eq_formula (A B : List (String × ℝ)) :
    cosineSim A B = dotProd A B / (Real.sqrt (normSq A) * Real.sqrt (normSq B)) := by
  unfold cosineSim
  split
  · next h =>
    rcases h with h | h
    · rw [dotProd_zero_left A B h, zero_div]
    · rw [dotProd_zero_right A B h, zero_div]
  · rfl

/-- Every key of a TF-IDF vector is a token of its document. -/
theorem tfidfVec_keys (N : ℕ) (df : String → ℕ) (tokens : List String) :
    ∀ p ∈ tfidfVec N df tokens, p.1 ∈ tokens := by
  intro p hp
  unfold tfidfVec at hp
  rcases List.mem_map.1 hp with ⟨t, ht, rfl⟩
  exact List.mem_dedup.1 ht

/-- `buildTfIdf` on a two-document corpus, with its document-frequency map
made explicit. -/
theorem buildTfIdf_pair (tA tB : String) :
    buildTfIdf [tA, tB] =
      [tfidfVec 2
        (fun t => (([tA, tB].map tokenize).filter (fun tk => tk.contains t)).length)
        (tokenize tA),
       tfidfVec 2
        (fun t => (([tA, tB].map tokenize).filter (fun tk => tk.contains t)).length)
        (tokenize tB)] := rfl

/-- C8: `cosineSim` equals `dot / (‖A‖ · ‖B‖)` in every case; it returns
exactly 0 (never a division by zero) whenever either squared norm is 0 —
including vectors built from empty or fully-stopworded text — and two texts
sharing no tokens after stop-word removal have similarity exactly 0. -/
theorem claim_C8_cosine_similarity :
    (∀ A B : List (String × ℝ), cosineSim A B =
      dotProd A B / (Real.sqrt (normSq A) * Real.sqrt (normSq B))) ∧
    (∀ A B : List (String × ℝ), normSq A = 0 ∨ normSq B = 0 → cosineSim A B = 0) ∧
    (∀ tA tB : String, (∀ t ∈ tokenize tA, t ∉ tokenize tB) →
      cosineSim ((buildTfIdf [tA, tB]).getD 0 []) ((buildTfIdf [tA, tB]).getD 1 []) = 0) ∧
    (∀ (N : ℕ) (df : String → ℕ) (s : String) (B : List (String × ℝ)),
      tokenize s = [] → cosineSim (tfidfVec N df (tokenize s)) B = 0) := by
  refine ⟨cosineSim_eq_formula, ?_, ?_, ?_⟩
  · intro A B h
    unfold cosineSim
    rw [if_pos h]
  · intro tA tB hdisj
    rw [buildTfIdf_pair]
    show cosineSim (tfidfVec 2 _ (tokenize tA)) (tfidfVec 2 _ (tokenize tB)) = 0
    rw [cosineSim_eq_formula, dotProd_zero_of_disjoint, zero_div]
    intro p hp q hq he
    exact hdisj p.1 (tfidfVec_keys _ _ _ p hp) (he ▸ tfidfVec_keys _ _ _ q hq)
  · intro N df s B h
    have hA : normSq (tfidfVec N df (tokenize s)) = 0 := by
      rw [h]; simp [tfidfVec, normSq]
    unfold cosineSim
    rw [if_pos (Or.inl hA)]

/-- C8 witness: the empty vector against a concrete vector scores 0; the
disjoint-vocabulary pair "student deadline" / "blockchain ledger" scores 0
through the full pipeline; a fully-stopworded text gives a zero vector and
similarity 0. -/
theorem claim_C8_cosine_similarity_witness :
    cosineSim [] [("app", (1 : ℝ))] = 0 ∧
    cosineSim ((buildTfIdf ["student deadline", "blockchain ledger"]).getD 0 [])
      ((buildTfIdf ["student deadline", "blockchain ledger"]).getD 1 []) = 0 ∧
    cosineSim (tfidfVec 2 (fun _ => 0) (tokenize "a the of")) [] = 0 :=
  ⟨claim_C8_cosine_similarity.2.1 [] [("app", 1)] (Or.inl (by simp [normSq])),
   claim_C8_cosine_similarity.2.2.1 "student deadline" "blockchain ledger" (by decide),
   claim_C8_cosine_similarity.2.2.2 2 (fun _ => 0) "a the of" [] (by decide)⟩

/-- C9: conditions originating from the external judge or from malformed
entries never escape as exceptions; they surface only as data values. A
failed network attempt (transport error, timeout, non-numeric score) is
absorbed into `{score: null, source: 'error'}` while recording the failure
on the breaker; every judge call yields one of the four documented sources,
with a null score whenever the source is `'error'`; an empty feature
description falls back to the feature name in the analyzed text; a missing
`confidence_impact` is normalized to -2 by the harvest mapper. -/
theorem claim_C9_error_absorption :
    (∀ (s : BreakerState) (cache : List (String × ℚ)) (ft ui : String) (now : ℕ),
      (checkCircuitBreaker s now).1 = true →
      lookupCache cache (cacheKey ft ui) = none →
      llmJudgeSimilarity s cache ft ui now NetOutcome.failure =
        ⟨⟨none, "error"⟩, tripBreaker (checkCircuitBreaker s now).2 now, cache, true⟩) ∧
    (∀ (s : BreakerState) (cache : List (String × ℚ)) (ft ui : String) (now : ℕ)
      (net : NetOutcome),
      (llmJudgeSimilarity s cache ft ui now net).res.source ∈
        ["circuit-breaker", "cache", "groq", "error"] ∧
      ((llmJudgeSimilarity s cache ft ui now net).res.source = "error" →
        (llmJudgeSimilarity s cache ft ui now net).res.score = none)) ∧
    (∀ f : Feature, f.description = "" → featText f = jsOr f.name "") ∧
    (∀ ra : RawAssumption, ra.confidence_impact = none →
      (harvestAssumption ra).confidence_impact = -2) := by
  refine ⟨?_, ?_, ?_, ?_⟩
  · intro s cache ft ui now h1 h2
    simp [llmJudgeSimilarity, h1, h2]
  · intro s cache ft ui now net
    by_cases hg : (checkCircuitBreaker s now).1 = false
    · simp [llmJudgeSimilarity, hg]
    · cases hc : lookupCache cache (cacheKey ft ui) with
      | some v => simp [llmJudgeSimilarity, hg, hc]
      | none => cases net <;> simp [llmJudgeSimilarity, hg, hc]
  · intro f h
    simp [featText, h, jsOr]
  · intro ra h
    simp [harvestAssumption, h]

/-- C9 witness: a concrete failing judge call from a fresh breaker returns
`{score: null, source: 'error'}` and counts the failure; the empty
description of a concrete feature falls back to its name; a concrete raw
assumption without `confidence_impact` is normalized to -2. -/
theorem claim_C9_error_absorption_witness :
    llmJudgeSimilarity ⟨0, 0, false⟩ [] "feat" "user" 5 NetOutcome.failure =
      ⟨⟨none, "error"⟩, ⟨1, 5, false⟩, [], true⟩ ∧
    (llmJudgeSimilarity ⟨0, 0, false⟩ [] "feat" "user" 5 NetOutcome.failure).res.source ∈
      ["circuit-breaker", "cache", "groq", "error"] ∧
    featText { name := "Reminders", description := "" } = jsOr "Reminders" "" ∧
    (harvestAssumption { assumption := some "x" }).confidence_impact = -2 :=
  ⟨claim_C9_error_absorption.1 ⟨0, 0, false⟩ [] "feat" "user" 5 rfl rfl,
   (claim_C9_error_absorption.2.1 ⟨0, 0, false⟩ [] "feat" "user" 5 NetOutcome.failure).1,
   claim_C9_error_absorption.2.2.1 { name := "Reminders", description := "" } rfl,
   claim_C9_error_absorption.2.2.2 { assumption := some "x" } rfl⟩
